import Mathlib

/-!
Verification of the gas-optimization core of oneclickmatic.com.

The engine (src/src/lib/gasOptimizer.ts) is a pure function over JS numbers;
all the numeric literals it uses (1.1, 1.2, 1.3, 0.8, percentiles, 1e9) are
modelled as exact rationals, so every arithmetic step of the source is mirrored
exactly over the rationals.  The upstream normalizers
(src/src/lib/polygonGasApi.ts) run parseInt on untrusted string fields and can
produce NaN; JS numbers there are modelled as values of type Option of a
rational, with none standing for NaN, and NaN propagation of each arithmetic
operator is modelled explicitly.
-/

namespace OneClickMatic

/-- Transaction types, from the TransactionType union in gasOptimizer.ts. -/
inductive TransactionType where
  | transfer
  | erc20Transfer
  | swap
  | nftMint
  | nftTransfer
  | contractInteraction
deriving DecidableEq

/-- Aggressiveness levels of GasOptimizerConfig.aggressiveness. -/
inductive Aggressiveness where
  | conservative
  | balanced
  | aggressive
deriving DecidableEq

/-- GasOptimizerConfig from gasOptimizer.ts (the field maxWaitTime is in
seconds, minSavingsPercent and feePercent are percentages). -/
structure GasOptimizerConfig where
  aggressiveness : Aggressiveness
  maxWaitTime : ℚ
  minSavingsPercent : ℚ
  feePercent : ℚ
deriving DecidableEq

/-- Default configuration built in the GasOptimizer constructor. -/
def defaultConfig : GasOptimizerConfig :=
  { aggressiveness := Aggressiveness.balanced
    maxWaitTime := 30
    minSavingsPercent := 5
    feePercent := 10 }

/-- TransactionDetails from gasOptimizer.ts; optional fields are Option. -/
structure TransactionDetails where
  type : TransactionType
  gasLimit : Option ℕ := none
  maxFeePerGas : Option ℚ := none
  maxPriorityFeePerGas : Option ℚ := none
deriving DecidableEq

/-- One speed tier of GasData.estimatedPrices. -/
structure FeeTier where
  maxFeePerGas : ℚ := 0
  maxPriorityFeePerGas : ℚ := 0
deriving DecidableEq

/-- The four speed tiers of GasData.estimatedPrices. -/
structure EstimatedPrices where
  safeLow : FeeTier := {}
  standard : FeeTier := {}
  fast : FeeTier := {}
  fastest : FeeTier := {}
deriving DecidableEq

/-- GasData from gasOptimizer.ts.  The engine itself reads only baseFee,
priorityFeeRange and networkCongestion; estimatedPrices and source are carried
for interface fidelity (the impure timestamp field is omitted; it never enters
the decision logic). -/
structure GasData where
  baseFee : ℚ
  priorityFeeRange : List ℚ
  networkCongestion : ℚ
  estimatedPrices : EstimatedPrices := {}
  source : String := ""
deriving DecidableEq

/-- The gasLimitRecommendations record built in the GasOptimizer constructor. -/
def gasLimitRecommendations : TransactionType → ℕ
  | TransactionType.transfer => 21000
  | TransactionType.erc20Transfer => 65000
  | TransactionType.swap => 200000
  | TransactionType.nftMint => 250000
  | TransactionType.nftTransfer => 100000
  | TransactionType.contractInteraction => 150000

/-- The three locals set by the switch in calculateOptimalGasSettings. -/
structure Strategy where
  priorityFeePercentile : ℚ
  maxFeePadding : ℚ
  estimatedWaitTime : ℚ
deriving DecidableEq

/-- The switch over config.aggressiveness in calculateOptimalGasSettings. -/
def strategyOf (cfg : GasOptimizerConfig) (networkCongestion : ℚ) : Strategy :=
  match cfg.aggressiveness with
  | Aggressiveness.conservative =>
      { priorityFeePercentile := if networkCongestion > 0.7 then 0.8 else 0.6
        maxFeePadding := 1.3
        estimatedWaitTime := 15 }
  | Aggressiveness.aggressive =>
      { priorityFeePercentile := if networkCongestion > 0.8 then 0.4 else 0.2
        maxFeePadding := 1.1
        estimatedWaitTime := if networkCongestion > 0.8 then 60 else 30 }
  | Aggressiveness.balanced =>
      { priorityFeePercentile := if networkCongestion > 0.7 then 0.6 else 0.4
        maxFeePadding := 1.2
        estimatedWaitTime := if networkCongestion > 0.7 then 30 else 20 }

/-- JS truthiness disjunction a || b restricted to numbers: a number is falsy
exactly when it is 0 (or NaN/undefined, modelled as none). -/
def jsNumOr (a b : Option ℚ) : Option ℚ :=
  match a with
  | some v => if v = 0 then b else some v
  | none => b

/-- Priority-fee selection of calculateOptimalGasSettings: sort the range
ascending, take the element at index floor(length * percentile), with the JS
fallback chain (sorted at index) || (sorted at 0).  When the range is empty the
source produces NaN; that corner is modelled as 0 and every theorem touching it
assumes a nonempty range. -/
def selectedPriorityFee (priorityFeeRange : List ℚ) (percentile : ℚ) : ℚ :=
  let sorted := priorityFeeRange.insertionSort (· ≤ ·)
  let index : ℕ := (⌊(sorted.length : ℚ) * percentile⌋).toNat
  (jsNumOr sorted[index]? sorted[0]?).getD 0

/-- Return type of calculateOptimalGasSettings. -/
structure OptimalGasSettings where
  maxFeePerGas : ℚ
  maxPriorityFeePerGas : ℚ
  estimatedWaitTime : ℚ
deriving DecidableEq

/-- calculateOptimalGasSettings from gasOptimizer.ts. -/
def calculateOptimalGasSettings (cfg : GasOptimizerConfig) (baseFee : ℚ)
    (priorityFeeRange : List ℚ) (networkCongestion : ℚ) : OptimalGasSettings :=
  let strat := strategyOf cfg networkCongestion
  let optimalPriorityFee := selectedPriorityFee priorityFeeRange strat.priorityFeePercentile
  let optimalMaxFee : ℚ := ((⌈(baseFee + optimalPriorityFee) * strat.maxFeePadding⌉ : ℤ) : ℚ)
  { maxFeePerGas := optimalMaxFee
    maxPriorityFeePerGas := optimalPriorityFee
    estimatedWaitTime := strat.estimatedWaitTime }

/-- recommendGasLimit from gasOptimizer.ts.  The JS test (not userGasLimit)
is true exactly for the number 0 here; the lookup-miss fallbacks of the source
(the expression table lookup or 100000, and the early return when the lookup is
falsy) are kept even though the lookup is total over the closed type. -/
def recommendGasLimit (transactionType : TransactionType) (userGasLimit : ℕ) : ℕ :=
  if userGasLimit = 0 ∨ userGasLimit < 21000 then
    let r := gasLimitRecommendations transactionType
    if r = 0 then 100000 else r
  else
    let recommendedLimit := gasLimitRecommendations transactionType
    if recommendedLimit = 0 then userGasLimit
    else if (userGasLimit : ℚ) < (recommendedLimit : ℚ) * 0.8 then recommendedLimit
    else userGasLimit

/-- estimateCost from gasOptimizer.ts: fee times gas limit, scaled by 1e9. -/
def estimateCost (maxFeePerGas : ℚ) (gasLimit : ℕ) : ℚ :=
  maxFeePerGas * (gasLimit : ℚ) / 1000000000

/-- Return type of calculateSavings. -/
structure SavingsCalc where
  savingsInMatic : ℚ
  savingsPercent : ℚ
deriving DecidableEq

/-- calculateSavings from gasOptimizer.ts. -/
def calculateSavings (originalMaxFee optimizedMaxFee : ℚ) (gasLimit : ℕ) : SavingsCalc :=
  let originalCost := estimateCost originalMaxFee gasLimit
  let optimizedCost := estimateCost optimizedMaxFee gasLimit
  let savingsInMatic := max 0 (originalCost - optimizedCost)
  let savingsPercent := if originalCost > 0 then savingsInMatic / originalCost * 100 else 0
  { savingsInMatic := savingsInMatic, savingsPercent := savingsPercent }

/-- The shouldOptimize predicate of gasOptimizer.ts. -/
def shouldOptimize (cfg : GasOptimizerConfig) (savingsPercent estimatedWaitTime : ℚ) : Bool :=
  decide (savingsPercent ≥ cfg.minSavingsPercent) && decide (estimatedWaitTime ≤ cfg.maxWaitTime)

/-- Savings levels of determineSavingsLevel. -/
inductive SavingsLevel where
  | high
  | medium
  | low
  | none
deriving DecidableEq

/-- determineSavingsLevel from gasOptimizer.ts. -/
def determineSavingsLevel (savingsPercent networkCongestion : ℚ) : SavingsLevel :=
  if savingsPercent > 20 ∨ (networkCongestion > 0.7 ∧ savingsPercent > 10) then SavingsLevel.high
  else if savingsPercent ≥ 10 then SavingsLevel.medium
  else if savingsPercent ≥ 5 then SavingsLevel.low
  else SavingsLevel.none

/-- The original block of OptimizationResult. -/
structure OriginalBlock where
  maxFeePerGas : ℚ
  maxPriorityFeePerGas : ℚ
  gasLimit : ℕ
  estimatedCostInMatic : ℚ
deriving DecidableEq

/-- The optimized block of OptimizationResult. -/
structure OptimizedBlock where
  maxFeePerGas : ℚ
  maxPriorityFeePerGas : ℚ
  gasLimit : ℕ
  estimatedCostInMatic : ℚ
  estimatedWaitTime : ℚ
deriving DecidableEq

/-- The savings block of OptimizationResult. -/
structure SavingsBlock where
  savingsInMatic : ℚ
  savingsPercent : ℚ
  savingsLevel : SavingsLevel
deriving DecidableEq

/-- The fee block of OptimizationResult. -/
structure FeeBlock where
  feeInMatic : ℚ
  feePercent : ℚ
deriving DecidableEq

/-- OptimizationResult from gasOptimizer.ts. -/
structure OptimizationResult where
  original : OriginalBlock
  optimized : OptimizedBlock
  savings : SavingsBlock
  fee : FeeBlock
  netSavings : ℚ
  shouldOptimize : Bool
deriving DecidableEq

/-- optimizeGas from gasOptimizer.ts; the destructuring defaults
(gasLimit 21000, maxFeePerGas 0, maxPriorityFeePerGas 0) are applied exactly
as in the source. -/
def optimizeGas (cfg : GasOptimizerConfig) (currentGasData : GasData)
    (transactionDetails : TransactionDetails) : OptimizationResult :=
  let baseFee := currentGasData.baseFee
  let priorityFeeRange := currentGasData.priorityFeeRange
  let networkCongestion := currentGasData.networkCongestion
  let userGasLimit := transactionDetails.gasLimit.getD 21000
  let userMaxFee := transactionDetails.maxFeePerGas.getD 0
  let userPriorityFee := transactionDetails.maxPriorityFeePerGas.getD 0
  let optimizedSettings := calculateOptimalGasSettings cfg baseFee priorityFeeRange networkCongestion
  let recommendedGasLimit := recommendGasLimit transactionDetails.type userGasLimit
  let savings := calculateSavings userMaxFee optimizedSettings.maxFeePerGas recommendedGasLimit
  let fee := if savings.savingsInMatic > 0 then savings.savingsInMatic * cfg.feePercent / 100 else 0
  let verdict := shouldOptimize cfg savings.savingsPercent optimizedSettings.estimatedWaitTime
  let savingsLevel := determineSavingsLevel savings.savingsPercent networkCongestion
  { original :=
      { maxFeePerGas := userMaxFee
        maxPriorityFeePerGas := userPriorityFee
        gasLimit := userGasLimit
        estimatedCostInMatic := estimateCost userMaxFee userGasLimit }
    optimized :=
      { maxFeePerGas := optimizedSettings.maxFeePerGas
        maxPriorityFeePerGas := optimizedSettings.maxPriorityFeePerGas
        gasLimit := recommendedGasLimit
        estimatedCostInMatic := estimateCost optimizedSettings.maxFeePerGas recommendedGasLimit
        estimatedWaitTime := optimizedSettings.estimatedWaitTime }
    savings :=
      { savingsInMatic := savings.savingsInMatic
        savingsPercent := savings.savingsPercent
        savingsLevel := savingsLevel }
    fee := { feeInMatic := fee, feePercent := cfg.feePercent }
    netSavings := savings.savingsInMatic - fee
    shouldOptimize := verdict }

/-- Percentile table of spec section 4.3, written from the spec words
(conservative: 0.8 if congestion is above 0.7 else 0.6; balanced: 0.6 if
congestion is above 0.7 else 0.4; aggressive: 0.4 if congestion is above 0.8
else 0.2); used to compare the engine with the spec statement of claim C2. -/
def specPercentile (a : Aggressiveness) (networkCongestion : ℚ) : ℚ :=
  match a with
  | Aggressiveness.conservative => if networkCongestion > 0.7 then 0.8 else 0.6
  | Aggressiveness.balanced => if networkCongestion > 0.7 then 0.6 else 0.4
  | Aggressiveness.aggressive => if networkCongestion > 0.8 then 0.4 else 0.2

/-- Padding table of spec section 4.3 (conservative 1.30, balanced 1.20,
aggressive 1.10), written from the spec words. -/
def specPadding : Aggressiveness → ℚ
  | Aggressiveness.conservative => 1.3
  | Aggressiveness.balanced => 1.2
  | Aggressiveness.aggressive => 1.1

/-- Spec wording of the percentile selection: sort the range ascending, take
the element at index floor(length times percentile); if that index is out of
range fall back to the lowest value of the sorted range. -/
def specSelectPriorityFee (priorityFeeRange : List ℚ) (percentile : ℚ) : ℚ :=
  let sorted := priorityFeeRange.insertionSort (· ≤ ·)
  let index : ℕ := (⌊(sorted.length : ℚ) * percentile⌋).toNat
  if h : index < sorted.length then sorted.get ⟨index, h⟩ else sorted.headD 0

/-- JS number as seen by the normalizers of polygonGasApi.ts: none is NaN. -/
abbrev JNum := Option ℚ

/-- NaN-propagating subtraction. -/
def jsub : JNum → JNum → JNum
  | some a, some b => some (a - b)
  | _, _ => none

/-- NaN-propagating multiplication (the right factor is always a literal in
the source, but NaN propagation is modelled on both sides). -/
def jmul : JNum → JNum → JNum
  | some a, some b => some (a * b)
  | _, _ => none

/-- NaN-propagating division; in the source the divisor is always the nonzero
literal 100, so JS infinity never arises here. -/
def jdiv : JNum → JNum → JNum
  | some a, some b => some (a / b)
  | _, _ => none

/-- Math.min with NaN propagation. -/
def jmin : JNum → JNum → JNum
  | some a, some b => some (min a b)
  | _, _ => none

/-- Math.max with NaN propagation. -/
def jmax : JNum → JNum → JNum
  | some a, some b => some (max a b)
  | _, _ => none

/-- Math.floor with NaN propagation. -/
def jfloor : JNum → JNum
  | some a => some ((⌊a⌋ : ℤ) : ℚ)
  | none => none

/-- Math.ceil with NaN propagation. -/
def jceil : JNum → JNum
  | some a => some ((⌈a⌉ : ℤ) : ℚ)
  | none => none

/-- Decimal core of the JS parseInt applied to a string: skip leading spaces,
read an optional sign and then the maximal run of leading decimal digits;
no digits means NaN.  The oracle payloads are plain decimal strings, so the
hexadecimal auto-detection of parseInt is out of scope. -/
def jsParseIntStr (s : String) : Option ℤ :=
  let cs := s.toList.dropWhile (fun c => c = ' ')
  let signAndDigits : ℤ × List Char :=
    match cs with
    | '-' :: rest => (-1, rest)
    | '+' :: rest => (1, rest)
    | _ => (1, cs)
  let ds := signAndDigits.2.takeWhile Char.isDigit
  if ds.isEmpty then none
  else some (signAndDigits.1 * ((ds.foldl (fun acc c => acc * 10 + (c.toNat - 48)) 0 : ℕ) : ℤ))

/-- JS parseInt over a possibly-absent field: parseInt of undefined is NaN. -/
def jsParseInt : Option String → JNum
  | none => none
  | some s => (jsParseIntStr s).map (fun z => (z : ℚ))

/-- One tier object of the gas-station payload; fields may be absent or
non-numeric strings. -/
structure RawGasTier where
  maxFee : Option String := none
  maxPriorityFee : Option String := none
deriving DecidableEq

/-- Raw gas-station body; a tier object itself may be absent, in which case
the field access in the source throws a TypeError. -/
structure GasStationBody where
  safeLow : Option RawGasTier := none
  standard : Option RawGasTier := none
  fast : Option RawGasTier := none
  fastest : Option RawGasTier := none
deriving DecidableEq

/-- The result object of the polygonscan payload. -/
structure PolygonscanResult where
  SafeGasPrice : Option String := none
  ProposeGasPrice : Option String := none
  FastGasPrice : Option String := none
deriving DecidableEq

/-- Raw polygonscan body. -/
structure PolygonscanBody where
  status : Option String := none
  result : Option PolygonscanResult := none
deriving DecidableEq

/-- What a normalizer can throw: the explicit invalid-response Error of
normalizePolygonscanData, or the TypeError raised when a tier object of the
gas-station body is absent and its field is accessed. -/
inductive NormalizeError where
  | typeError
  | invalidResponse
deriving DecidableEq

/-- One tier of the normalized estimatedPrices as produced by the
normalizers; fields are JS numbers and may be NaN. -/
structure JFeeTier where
  maxFeePerGas : JNum
  maxPriorityFeePerGas : JNum
deriving DecidableEq

/-- The four normalized tiers. -/
structure JEstimatedPrices where
  safeLow : JFeeTier
  standard : JFeeTier
  fast : JFeeTier
  fastest : JFeeTier
deriving DecidableEq

/-- GasData as built by the normalizers of polygonGasApi.ts, with JS numbers
that may be NaN (the impure timestamp field is omitted). -/
structure JGasData where
  baseFee : JNum
  priorityFeeRange : List JNum
  networkCongestion : JNum
  estimatedPrices : JEstimatedPrices
  source : String
deriving DecidableEq

/-- normalizeGasStationData from polygonGasApi.ts.  When every tier object is
present the function never throws: parseInt of a bad string merely yields NaN
and the NaN flows into the returned snapshot. -/
def normalizeGasStationData (data : GasStationBody) : Except NormalizeError JGasData :=
  match data.safeLow, data.standard, data.fast, data.fastest with
  | some safeLow, some standard, some fast, some fastest =>
    let baseFee := jsub (jsParseInt standard.maxFee) (jsParseInt standard.maxPriorityFee)
    let priorityFeeRange :=
      [jsParseInt safeLow.maxPriorityFee, jsParseInt standard.maxPriorityFee,
        jsParseInt fast.maxPriorityFee, jsParseInt fastest.maxPriorityFee]
    let networkCongestion := jmin (some 1) (jdiv baseFee (some 100))
    Except.ok
      { baseFee := baseFee
        priorityFeeRange := priorityFeeRange
        networkCongestion := networkCongestion
        estimatedPrices :=
          { safeLow :=
              { maxFeePerGas := jsParseInt safeLow.maxFee
                maxPriorityFeePerGas := jsParseInt safeLow.maxPriorityFee }
            standard :=
              { maxFeePerGas := jsParseInt standard.maxFee
                maxPriorityFeePerGas := jsParseInt standard.maxPriorityFee }
            fast :=
              { maxFeePerGas := jsParseInt fast.maxFee
                maxPriorityFeePerGas := jsParseInt fast.maxPriorityFee }
            fastest :=
              { maxFeePerGas := jsParseInt fastest.maxFee
                maxPriorityFeePerGas := jsParseInt fastest.maxPriorityFee } }
        source := "gasStation" }
  | _, _, _, _ => Except.error NormalizeError.typeError

/-- normalizePolygonscanData from polygonGasApi.ts. -/
def normalizePolygonscanData (data : PolygonscanBody) : Except NormalizeError JGasData :=
  if data.status ≠ some ("1") ∨ data.result = none then Except.error NormalizeError.invalidResponse
  else
    match data.result with
    | none => Except.error NormalizeError.invalidResponse
    | some result =>
      let safeLowGas := jsParseInt result.SafeGasPrice
      let standardGas := jsParseInt result.ProposeGasPrice
      let fastGas := jsParseInt result.FastGasPrice
      let baseFee := jfloor (jmul standardGas (some 0.8))
      let safeLowPriorityFee := jsub safeLowGas baseFee
      let standardPriorityFee := jsub standardGas baseFee
      let fastPriorityFee := jsub fastGas baseFee
      let priorityFeeRange :=
        [jmax (some 1) safeLowPriorityFee, standardPriorityFee, fastPriorityFee,
          jceil (jmul fastPriorityFee (some 1.2))]
      let networkCongestion := jmin (some 1) (jdiv baseFee (some 100))
      Except.ok
        { baseFee := baseFee
          priorityFeeRange := priorityFeeRange
          networkCongestion := networkCongestion
          estimatedPrices :=
            { safeLow :=
                { maxFeePerGas := safeLowGas
                  maxPriorityFeePerGas := jmax (some 1) safeLowPriorityFee }
              standard :=
                { maxFeePerGas := standardGas
                  maxPriorityFeePerGas := standardPriorityFee }
              fast :=
                { maxFeePerGas := fastGas
                  maxPriorityFeePerGas := fastPriorityFee }
              fastest :=
                { maxFeePerGas := jceil (jmul fastGas (some 1.2))
                  maxPriorityFeePerGas := jceil (jmul fastPriorityFee (some 1.2)) } }
          source := "polygonscan" }

/-- A gas-station body whose tier objects are all present but whose standard
maxFee field is the non-numeric string abc; used to exercise the missing
validation of normalizeGasStationData. -/
def c6Body : GasStationBody :=
  { safeLow := some { maxFee := some ("30"), maxPriorityFee := some ("30") }
    standard := some { maxFee := some ("abc"), maxPriorityFee := some ("32") }
    fast := some { maxFee := some ("35"), maxPriorityFee := some ("34") }
    fastest := some { maxFee := some ("40"), maxPriorityFee := some ("38") } }

/-- A fully numeric gas-station body with ascending tier fees (standard
maxFee 62 and maxPriorityFee 32, so the derived base fee is 30). -/
def c4GasBody : GasStationBody :=
  { safeLow := some { maxFee := some ("40"), maxPriorityFee := some ("30") }
    standard := some { maxFee := some ("62"), maxPriorityFee := some ("32") }
    fast := some { maxFee := some ("65"), maxPriorityFee := some ("34") }
    fastest := some { maxFee := some ("70"), maxPriorityFee := some ("38") } }

/-- A polygonscan body whose propose price 150 gives base fee floor(120). -/
def c4ScanBody : PolygonscanBody :=
  { status := some ("1")
    result := some
      { SafeGasPrice := some ("140")
        ProposeGasPrice := some ("150")
        FastGasPrice := some ("160") } }

/-- Gas-station body with ascending maxFee strings 30, 32, 35, 40. -/
def c5GasBody : GasStationBody :=
  { safeLow := some { maxFee := some ("30"), maxPriorityFee := some ("25") }
    standard := some { maxFee := some ("32"), maxPriorityFee := some ("27") }
    fast := some { maxFee := some ("35"), maxPriorityFee := some ("29") }
    fastest := some { maxFee := some ("40"), maxPriorityFee := some ("33") } }

/-- Polygonscan body with ascending prices 100, 150, 200. -/
def c5ScanBody : PolygonscanBody :=
  { status := some ("1")
    result := some
      { SafeGasPrice := some ("100")
        ProposeGasPrice := some ("150")
        FastGasPrice := some ("200") } }

/-- A polygonscan body that passes the status/result check but whose
SafeGasPrice is the non-numeric string abc; used to show the polygonscan
normalizer accepts bodies with NaN leaves. -/
def c6ScanBody : PolygonscanBody :=
  { status := some ("1")
    result := some
      { SafeGasPrice := some ("abc")
        ProposeGasPrice := some ("150")
        FastGasPrice := some ("160") } }

/-- Which upstream endpoint a fetch attempt hits. -/
inductive ApiSource where
  | primary
  | fallback
deriving DecidableEq

/-- Outcome of one fetchGasData cycle: the endpoints called in order, whether
the cycle succeeded, and the retryCount field after the cycle. -/
structure FetchResult where
  calls : List ApiSource
  success : Bool
  retryCount : ℕ
deriving DecidableEq

/-- The retry logic of one fetchGasData cycle from polygonGasApi.ts, over the
persistent retryCount state.  The booleans say whether the first primary
attempt, the primary retry and the fallback attempt would succeed.  The source
attempts the primary once; its catch handler increments retryCount, and when
the incremented count exceeds maxRetries it resets the count to 0 and calls
the fallback (whose own success or failure leaves the count at 0); otherwise
it calls the primary a second time, and a failure of that retry fails the
cycle without touching retryCount again. -/
def fetchCycle (maxRetries retryCount : ℕ) (p1 p2 fb : Bool) : FetchResult :=
  if p1 then
    { calls := [ApiSource.primary], success := true, retryCount := retryCount }
  else
    let rc := retryCount + 1
    if rc > maxRetries then
      { calls := [ApiSource.primary, ApiSource.fallback], success := fb, retryCount := 0 }
    else
      { calls := [ApiSource.primary, ApiSource.primary], success := p2, retryCount := rc }

/-- retryCount after n consecutive fully failing cycles (primary attempts and
fallback all failing), starting from 0. -/
def failCycles (maxRetries : ℕ) : ℕ → ℕ
  | 0 => 0
  | n + 1 => (fetchCycle maxRetries (failCycles maxRetries n) false false false).retryCount

/-- C1: for the snapshot baseFee=50, priorityFeeRange=[1,2,3,4],
networkCongestion=0.5 and the intent type=transfer, gasLimit=21000,
maxFeePerGas=80, maxPriorityFeePerGas=5, under the balanced default policy
(minSavingsPercent=5, maxWaitTimeSeconds=30, feePercent=10), optimizeGas
returns optimized priority fee 2, optimized max fee 63, wait 20, original cost
0.00168, optimized cost 0.001323, savings 0.000357 (21.25 percent, tier high),
shouldOptimize true, service fee 0.0000357 and net savings 0.0003213. -/
theorem c1_example_scenario :
    optimizeGas defaultConfig
      { baseFee := 50, priorityFeeRange := [1, 2, 3, 4], networkCongestion := 0.5 }
      { type := TransactionType.transfer
        gasLimit := some 21000
        maxFeePerGas := some 80
        maxPriorityFeePerGas := some 5 } =
    { original :=
        { maxFeePerGas := 80
          maxPriorityFeePerGas := 5
          gasLimit := 21000
          estimatedCostInMatic := 0.00168 }
      optimized :=
        { maxFeePerGas := 63
          maxPriorityFeePerGas := 2
          gasLimit := 21000
          estimatedCostInMatic := 0.001323
          estimatedWaitTime := 20 }
      savings :=
        { savingsInMatic := 0.000357
          savingsPercent := 21.25
          savingsLevel := SavingsLevel.high }
      fee := { feeInMatic := 0.0000357, feePercent := 10 }
      netSavings := 0.0003213
      shouldOptimize := true } := by
  have hs : ([1, 2, 3, 4] : List ℚ).insertionSort (· ≤ ·) = [1, 2, 3, 4] := by decide
  have hf : ⌊((4 : ℕ) : ℚ) * (2 / 5)⌋ = (1 : ℤ) := by
    rw [Int.floor_eq_iff]
    constructor <;> norm_num
  have hsel : selectedPriorityFee [1, 2, 3, 4] (2 / 5) = 2 := by
    simp only [selectedPriorityFee, hs, List.length_cons, List.length_nil]
    norm_num [hf, jsNumOr]
  have hceil : ⌈(312 / 5 : ℚ)⌉ = (63 : ℤ) := by
    rw [Int.ceil_eq_iff]
    constructor <;> norm_num
  simp only [optimizeGas, calculateOptimalGasSettings, strategyOf, defaultConfig]
  norm_num [hsel, hceil, recommendGasLimit, gasLimitRecommendations, calculateSavings,
    estimateCost, shouldOptimize, determineSavingsLevel]

/-- The percentile of the strategy switch agrees with the spec table. -/
lemma strategy_percentile (cfg : GasOptimizerConfig) (c : ℚ) :
    (strategyOf cfg c).priorityFeePercentile = specPercentile cfg.aggressiveness c := by
  cases h : cfg.aggressiveness <;> simp [strategyOf, specPercentile, h]

/-- The padding of the strategy switch agrees with the spec table. -/
lemma strategy_padding (cfg : GasOptimizerConfig) (c : ℚ) :
    (strategyOf cfg c).maxFeePadding = specPadding cfg.aggressiveness := by
  cases h : cfg.aggressiveness <;> simp [strategyOf, specPadding, h]

/-- Every percentile of the table is non-negative. -/
lemma specPercentile_nonneg (a : Aggressiveness) (c : ℚ) : 0 ≤ specPercentile a c := by
  cases a <;> simp only [specPercentile] <;> split <;> norm_num

/-- Every percentile of the table is below 1. -/
lemma specPercentile_lt_one (a : Aggressiveness) (c : ℚ) : specPercentile a c < 1 := by
  cases a <;> simp only [specPercentile] <;> split <;> norm_num

/-- Every padding factor of the table is positive. -/
lemma specPadding_pos (a : Aggressiveness) : 0 < specPadding a := by
  cases a <;> norm_num [specPadding]

/-- On a nonempty range of non-negative fees, the JS fallback chain of the
source selects exactly the value the spec describes. -/
lemma selectedPriorityFee_eq_spec (l : List ℚ) (hne : l ≠ []) (hnn : ∀ x ∈ l, 0 ≤ x)
    (p : ℚ) (hp1 : p < 1) :
    selectedPriorityFee l p = specSelectPriorityFee l p := by
  unfold selectedPriorityFee specSelectPriorityFee
  dsimp only
  have hperm := List.perm_insertionSort (fun x1 x2 : ℚ => x1 ≤ x2) l
  have hlen : (l.insertionSort (· ≤ ·)).length = l.length := hperm.length_eq
  have hpos : 0 < l.length := List.length_pos.mpr hne
  have hlt : (⌊((l.insertionSort (· ≤ ·)).length : ℚ) * p⌋).toNat
      < (l.insertionSort (· ≤ ·)).length := by
    have h1 : ⌊((l.insertionSort (· ≤ ·)).length : ℚ) * p⌋
        < ((l.insertionSort (· ≤ ·)).length : ℤ) := by
      apply Int.floor_lt.mpr
      push_cast
      have hlp : 0 < ((l.insertionSort (· ≤ ·)).length : ℚ) := by
        rw [hlen]
        exact_mod_cast hpos
      calc ((l.insertionSort (· ≤ ·)).length : ℚ) * p
          < ((l.insertionSort (· ≤ ·)).length : ℚ) * 1 := by
            exact mul_lt_mul_of_pos_left hp1 hlp
        _ = ((l.insertionSort (· ≤ ·)).length : ℚ) := mul_one _
    omega
  have h0 : 0 < (l.insertionSort (· ≤ ·)).length := by omega
  have hsorted : List.Sorted (· ≤ ·) (l.insertionSort (· ≤ ·)) :=
    List.sorted_insertionSort (fun x1 x2 : ℚ => x1 ≤ x2) l
  rw [dif_pos hlt, List.getElem?_eq_getElem hlt, List.getElem?_eq_getElem h0]
  simp only [jsNumOr, List.get_eq_getElem]
  split
  · rename_i hv
    have hle : (l.insertionSort (· ≤ ·))[0]
        ≤ (l.insertionSort (· ≤ ·))[(⌊((l.insertionSort (· ≤ ·)).length : ℚ) * p⌋).toNat] := by
      have hrel := hsorted.rel_get_of_le (a := ⟨0, h0⟩)
        (b := ⟨(⌊((l.insertionSort (· ≤ ·)).length : ℚ) * p⌋).toNat, hlt⟩)
        (Fin.mk_le_mk.mpr (Nat.zero_le _))
      simpa only [List.get_eq_getElem] using hrel
    have hmem : (l.insertionSort (· ≤ ·))[0] ∈ l :=
      hperm.subset (List.get_mem _ _ _)
    have hge : 0 ≤ (l.insertionSort (· ≤ ·))[0] := hnn _ hmem
    have h00 : (l.insertionSort (· ≤ ·))[0] = 0 := le_antisymm (hv ▸ hle) hge
    rw [Option.getD_some, h00, hv]
  · rename_i hv
    rw [Option.getD_some]

/-- C2: for every snapshot with a nonempty range of non-negative priority
fees, the engine selects the priority fee at index floor(length * percentile)
of the range sorted ascending (falling back to the lowest sorted value when
the index is out of range) and sets the optimized max fee to
ceil((baseFee + selected) * padding), with percentile and padding given by the
aggressiveness and congestion table of the spec. -/
theorem c2_optimal_settings_formula (cfg : GasOptimizerConfig) (snap : GasData)
    (intent : TransactionDetails)
    (hne : snap.priorityFeeRange ≠ [])
    (hnn : ∀ x ∈ snap.priorityFeeRange, 0 ≤ x) :
    (optimizeGas cfg snap intent).optimized.maxPriorityFeePerGas
        = specSelectPriorityFee snap.priorityFeeRange
            (specPercentile cfg.aggressiveness snap.networkCongestion) ∧
    (optimizeGas cfg snap intent).optimized.maxFeePerGas
        = ((⌈(snap.baseFee
              + specSelectPriorityFee snap.priorityFeeRange
                  (specPercentile cfg.aggressiveness snap.networkCongestion))
              * specPadding cfg.aggressiveness⌉ : ℤ) : ℚ) := by
  have e1 : (optimizeGas cfg snap intent).optimized.maxPriorityFeePerGas
      = selectedPriorityFee snap.priorityFeeRange
          (strategyOf cfg snap.networkCongestion).priorityFeePercentile := rfl
  have e2 : (optimizeGas cfg snap intent).optimized.maxFeePerGas
      = ((⌈(snap.baseFee
            + selectedPriorityFee snap.priorityFeeRange
                (strategyOf cfg snap.networkCongestion).priorityFeePercentile)
            * (strategyOf cfg snap.networkCongestion).maxFeePadding⌉ : ℤ) : ℚ) := rfl
  rw [e1, e2, strategy_percentile, strategy_padding,
    selectedPriorityFee_eq_spec snap.priorityFeeRange hne hnn _
      (specPercentile_lt_one cfg.aggressiveness snap.networkCongestion)]
  exact ⟨rfl, rfl⟩

/-- Witness for C2 at the concrete scenario of the spec example. -/
theorem c2_optimal_settings_formula_witness :
    (([1, 2, 3, 4] : List ℚ) ≠ [] ∧ ∀ x ∈ ([1, 2, 3, 4] : List ℚ), 0 ≤ x) ∧
    ((optimizeGas defaultConfig
        { baseFee := 50, priorityFeeRange := [1, 2, 3, 4], networkCongestion := 0.5 }
        { type := TransactionType.transfer }).optimized.maxPriorityFeePerGas
      = specSelectPriorityFee [1, 2, 3, 4]
          (specPercentile defaultConfig.aggressiveness 0.5) ∧
    (optimizeGas defaultConfig
        { baseFee := 50, priorityFeeRange := [1, 2, 3, 4], networkCongestion := 0.5 }
        { type := TransactionType.transfer }).optimized.maxFeePerGas
      = ((⌈((50 : ℚ)
            + specSelectPriorityFee [1, 2, 3, 4]
                (specPercentile defaultConfig.aggressiveness 0.5))
            * specPadding defaultConfig.aggressiveness⌉ : ℤ) : ℚ)) :=
  ⟨⟨by decide, by decide⟩,
    c2_optimal_settings_formula defaultConfig
      { baseFee := 50, priorityFeeRange := [1, 2, 3, 4], networkCongestion := 0.5 }
      { type := TransactionType.transfer } (by decide) (by decide)⟩

/-- The recommendation table never holds 0, so the two lookup-miss fallbacks
of recommendGasLimit are inert and the function has this three-branch form. -/
lemma recommendGasLimit_eq (t : TransactionType) (g : ℕ) :
    recommendGasLimit t g =
      if g = 0 ∨ g < 21000 then gasLimitRecommendations t
      else if (g : ℚ) < (gasLimitRecommendations t : ℚ) * 0.8 then gasLimitRecommendations t
      else g := by
  have hr : gasLimitRecommendations t ≠ 0 := by cases t <;> decide
  unfold recommendGasLimit
  simp [hr]

/-- C3: the engine recommends the per-type default gas limit when the caller
supplied no limit (defaulted to 21000 and then mapped to the type default) or
a limit below the protocol minimum 21000; a supplied limit below 80 percent of
the type default is replaced by the default; any other limit is kept; the
default table is transfer 21000, erc20Transfer 65000, swap 200000, nftMint
250000, nftTransfer 100000, contractInteraction 150000; and gasLimit 10000
with type swap yields 200000. -/
theorem c3_recommended_gas_limit (cfg : GasOptimizerConfig) (snap : GasData)
    (intent : TransactionDetails) (t : TransactionType) (g : ℕ) :
    ((optimizeGas cfg snap intent).optimized.gasLimit
        = recommendGasLimit intent.type (intent.gasLimit.getD 21000)) ∧
    (recommendGasLimit t ((none : Option ℕ).getD 21000) = gasLimitRecommendations t) ∧
    (g = 0 ∨ g < 21000 → recommendGasLimit t g = gasLimitRecommendations t) ∧
    (21000 ≤ g → (g : ℚ) < (gasLimitRecommendations t : ℚ) * 0.8 →
        recommendGasLimit t g = gasLimitRecommendations t) ∧
    (21000 ≤ g → (gasLimitRecommendations t : ℚ) * 0.8 ≤ (g : ℚ) →
        recommendGasLimit t g = g) ∧
    gasLimitRecommendations TransactionType.transfer = 21000 ∧
    gasLimitRecommendations TransactionType.erc20Transfer = 65000 ∧
    gasLimitRecommendations TransactionType.swap = 200000 ∧
    gasLimitRecommendations TransactionType.nftMint = 250000 ∧
    gasLimitRecommendations TransactionType.nftTransfer = 100000 ∧
    gasLimitRecommendations TransactionType.contractInteraction = 150000 ∧
    recommendGasLimit TransactionType.swap 10000 = 200000 := by
  refine ⟨rfl, ?_, ?_, ?_, ?_, rfl, rfl, rfl, rfl, rfl, rfl, by decide⟩
  · show recommendGasLimit t 21000 = gasLimitRecommendations t
    rw [recommendGasLimit_eq]
    cases t <;> norm_num [gasLimitRecommendations]
  · intro h
    rw [recommendGasLimit_eq, if_pos h]
  · intro h1 h2
    have hcond : ¬(g = 0 ∨ g < 21000) := by omega
    rw [recommendGasLimit_eq, if_neg hcond, if_pos h2]
  · intro h1 h2
    have hcond : ¬(g = 0 ∨ g < 21000) := by omega
    rw [recommendGasLimit_eq, if_neg hcond, if_neg (not_lt.mpr h2)]

/-- Witness for C3 at type swap with the undersized limit 10000 and the claim
scenario limits. -/
theorem c3_recommended_gas_limit_witness :
    ((10000 : ℕ) = 0 ∨ (10000 : ℕ) < 21000) ∧
    recommendGasLimit TransactionType.swap 10000 = gasLimitRecommendations TransactionType.swap ∧
    (21000 : ℕ) ≤ 60000 ∧ ((60000 : ℕ) : ℚ) < ((gasLimitRecommendations TransactionType.swap : ℕ) : ℚ) * 0.8 ∧
    recommendGasLimit TransactionType.swap 60000 = gasLimitRecommendations TransactionType.swap ∧
    (21000 : ℕ) ≤ 300000 ∧ ((gasLimitRecommendations TransactionType.swap : ℕ) : ℚ) * 0.8 ≤ ((300000 : ℕ) : ℚ) ∧
    recommendGasLimit TransactionType.swap 300000 = 300000 :=
  ⟨Or.inr (by norm_num),
    (c3_recommended_gas_limit defaultConfig
      { baseFee := 50, priorityFeeRange := [1, 2, 3, 4], networkCongestion := 0.5 }
      { type := TransactionType.swap } TransactionType.swap 10000).2.2.1
      (Or.inr (by norm_num)),
    by norm_num,
    by norm_num [gasLimitRecommendations],
    (c3_recommended_gas_limit defaultConfig
      { baseFee := 50, priorityFeeRange := [1, 2, 3, 4], networkCongestion := 0.5 }
      { type := TransactionType.swap } TransactionType.swap 60000).2.2.2.1
      (by norm_num) (by norm_num [gasLimitRecommendations]),
    by norm_num,
    by norm_num [gasLimitRecommendations],
    (c3_recommended_gas_limit defaultConfig
      { baseFee := 50, priorityFeeRange := [1, 2, 3, 4], networkCongestion := 0.5 }
      { type := TransactionType.swap } TransactionType.swap 300000).2.2.2.2.1
      (by norm_num) (by norm_num [gasLimitRecommendations])⟩

/-- C7: for a fixed congestion level, priority-fee range, intent and policy,
a higher base fee never yields a lower optimized max fee. -/
theorem c7_baseFee_monotone (cfg : GasOptimizerConfig) (intent : TransactionDetails)
    (s1 s2 : GasData)
    (hr : s1.priorityFeeRange = s2.priorityFeeRange)
    (hc : s1.networkCongestion = s2.networkCongestion)
    (hne : s1.priorityFeeRange ≠ [])
    (hb : s1.baseFee ≤ s2.baseFee) :
    (optimizeGas cfg s1 intent).optimized.maxFeePerGas ≤
      (optimizeGas cfg s2 intent).optimized.maxFeePerGas := by
  have e1 : (optimizeGas cfg s1 intent).optimized.maxFeePerGas
      = ((⌈(s1.baseFee
            + selectedPriorityFee s1.priorityFeeRange
                (strategyOf cfg s1.networkCongestion).priorityFeePercentile)
            * (strategyOf cfg s1.networkCongestion).maxFeePadding⌉ : ℤ) : ℚ) := rfl
  have e2 : (optimizeGas cfg s2 intent).optimized.maxFeePerGas
      = ((⌈(s2.baseFee
            + selectedPriorityFee s2.priorityFeeRange
                (strategyOf cfg s2.networkCongestion).priorityFeePercentile)
            * (strategyOf cfg s2.networkCongestion).maxFeePadding⌉ : ℤ) : ℚ) := rfl
  rw [e1, e2, hr, hc]
  have hpad : 0 ≤ (strategyOf cfg s2.networkCongestion).maxFeePadding := by
    rw [strategy_padding]
    exact (specPadding_pos cfg.aggressiveness).le
  have hmul : (s1.baseFee
        + selectedPriorityFee s2.priorityFeeRange
            (strategyOf cfg s2.networkCongestion).priorityFeePercentile)
        * (strategyOf cfg s2.networkCongestion).maxFeePadding
      ≤ (s2.baseFee
        + selectedPriorityFee s2.priorityFeeRange
            (strategyOf cfg s2.networkCongestion).priorityFeePercentile)
        * (strategyOf cfg s2.networkCongestion).maxFeePadding :=
    mul_le_mul_of_nonneg_right (add_le_add_right hb _) hpad
  exact_mod_cast Int.ceil_mono hmul

/-- Witness for C7 on two concrete snapshots with base fees 50 and 70. -/
theorem c7_baseFee_monotone_witness :
    (([1, 2, 3, 4] : List ℚ) = [1, 2, 3, 4] ∧ (0.5 : ℚ) = 0.5 ∧
      ([1, 2, 3, 4] : List ℚ) ≠ [] ∧ (50 : ℚ) ≤ 70) ∧
    (optimizeGas defaultConfig
        { baseFee := 50, priorityFeeRange := [1, 2, 3, 4], networkCongestion := 0.5 }
        { type := TransactionType.transfer }).optimized.maxFeePerGas ≤
      (optimizeGas defaultConfig
        { baseFee := 70, priorityFeeRange := [1, 2, 3, 4], networkCongestion := 0.5 }
        { type := TransactionType.transfer }).optimized.maxFeePerGas :=
  ⟨⟨rfl, rfl, by decide, by norm_num⟩,
    c7_baseFee_monotone defaultConfig { type := TransactionType.transfer }
      { baseFee := 50, priorityFeeRange := [1, 2, 3, 4], networkCongestion := 0.5 }
      { baseFee := 70, priorityFeeRange := [1, 2, 3, 4], networkCongestion := 0.5 }
      rfl rfl (by decide) (by norm_num)⟩

/-- Any selected priority fee over a range of non-negative fees is itself
non-negative (every branch of the JS fallback chain yields either a member of
the range or the empty-range stand-in 0). -/
lemma selectedPriorityFee_nonneg (l : List ℚ) (hnn : ∀ x ∈ l, 0 ≤ x) (p : ℚ) :
    0 ≤ selectedPriorityFee l p := by
  unfold selectedPriorityFee
  dsimp only
  have hperm := List.perm_insertionSort (fun x1 x2 : ℚ => x1 ≤ x2) l
  have hmem : ∀ x ∈ l.insertionSort (· ≤ ·), 0 ≤ x := fun x hx => hnn x (hperm.subset hx)
  unfold jsNumOr
  cases hx : (l.insertionSort (· ≤ ·))[(⌊((l.insertionSort (· ≤ ·)).length : ℚ) * p⌋).toNat]? with
  | none =>
    cases hy : (l.insertionSort (· ≤ ·))[0]? with
    | none => simp
    | some y => simpa using hmem y (List.getElem?_mem hy)
  | some x =>
    by_cases hx0 : x = 0
    · simp only [hx0, if_pos rfl]
      cases hy : (l.insertionSort (· ≤ ·))[0]? with
      | none => simp
      | some y => simpa using hmem y (List.getElem?_mem hy)
    · simp only [if_neg hx0]
      simpa using hmem x (List.getElem?_mem hx)

/-- C10: when the caller supplies no original max fee the engine takes it as
0, so the original cost, savings, savings percentage, service fee and net
savings are all 0, and the verdict is negative for every policy with a
positive minimum-savings threshold. -/
theorem c10_absent_user_max_fee (cfg : GasOptimizerConfig) (snap : GasData)
    (intent : TransactionDetails)
    (hmf : intent.maxFeePerGas = none)
    (hmin : 0 < cfg.minSavingsPercent)
    (hb : 0 ≤ snap.baseFee)
    (hne : snap.priorityFeeRange ≠ [])
    (hnn : ∀ x ∈ snap.priorityFeeRange, 0 ≤ x) :
    (optimizeGas cfg snap intent).original.maxFeePerGas = 0 ∧
    (optimizeGas cfg snap intent).original.estimatedCostInMatic = 0 ∧
    (optimizeGas cfg snap intent).savings.savingsInMatic = 0 ∧
    (optimizeGas cfg snap intent).savings.savingsPercent = 0 ∧
    (optimizeGas cfg snap intent).fee.feeInMatic = 0 ∧
    (optimizeGas cfg snap intent).netSavings = 0 ∧
    (optimizeGas cfg snap intent).shouldOptimize = false := by
  have hsel : 0 ≤ selectedPriorityFee snap.priorityFeeRange
      (strategyOf cfg snap.networkCongestion).priorityFeePercentile :=
    selectedPriorityFee_nonneg snap.priorityFeeRange hnn _
  have hpad : 0 ≤ (strategyOf cfg snap.networkCongestion).maxFeePadding := by
    rw [strategy_padding]
    exact (specPadding_pos cfg.aggressiveness).le
  have hopt : 0 ≤ (calculateOptimalGasSettings cfg snap.baseFee snap.priorityFeeRange
      snap.networkCongestion).maxFeePerGas := by
    show (0 : ℚ) ≤ ((⌈(snap.baseFee
        + selectedPriorityFee snap.priorityFeeRange
            (strategyOf cfg snap.networkCongestion).priorityFeePercentile)
        * (strategyOf cfg snap.networkCongestion).maxFeePadding⌉ : ℤ) : ℚ)
    have : (0 : ℤ) ≤ ⌈(snap.baseFee
        + selectedPriorityFee snap.priorityFeeRange
            (strategyOf cfg snap.networkCongestion).priorityFeePercentile)
        * (strategyOf cfg snap.networkCongestion).maxFeePadding⌉ :=
      Int.ceil_nonneg (mul_nonneg (add_nonneg hb hsel) hpad)
    exact_mod_cast this
  have hcost : 0 ≤ estimateCost (calculateOptimalGasSettings cfg snap.baseFee
      snap.priorityFeeRange snap.networkCongestion).maxFeePerGas
      (recommendGasLimit intent.type (intent.gasLimit.getD 21000)) := by
    unfold estimateCost
    positivity
  have hsav : calculateSavings 0 (calculateOptimalGasSettings cfg snap.baseFee
        snap.priorityFeeRange snap.networkCongestion).maxFeePerGas
        (recommendGasLimit intent.type (intent.gasLimit.getD 21000))
      = { savingsInMatic := 0, savingsPercent := 0 } := by
    unfold calculateSavings
    have h0 : estimateCost 0 (recommendGasLimit intent.type (intent.gasLimit.getD 21000)) = 0 := by
      unfold estimateCost
      ring
    rw [h0]
    simp only [SavingsCalc.mk.injEq]
    constructor
    · rw [zero_sub]
      exact max_eq_left (neg_nonpos.mpr hcost)
    · rw [if_neg (lt_irrefl 0)]
  have hdec : decide ((0 : ℚ) ≥ cfg.minSavingsPercent) = false :=
    decide_eq_false (not_le.mpr hmin)
  simp [optimizeGas, hmf, hsav, shouldOptimize, estimateCost, hdec]

/-- Witness for C10 on a concrete snapshot and an intent with no max fee. -/
theorem c10_absent_user_max_fee_witness :
    (({ type := TransactionType.transfer } : TransactionDetails).maxFeePerGas = none ∧
      (0 : ℚ) < defaultConfig.minSavingsPercent ∧ (0 : ℚ) ≤ 50 ∧
      ([1, 2, 3, 4] : List ℚ) ≠ [] ∧
      ∀ x ∈ ([1, 2, 3, 4] : List ℚ), 0 ≤ x) ∧
    (optimizeGas defaultConfig
        { baseFee := 50, priorityFeeRange := [1, 2, 3, 4], networkCongestion := 0.5 }
        { type := TransactionType.transfer }).savings.savingsInMatic = 0 ∧
    (optimizeGas defaultConfig
        { baseFee := 50, priorityFeeRange := [1, 2, 3, 4], networkCongestion := 0.5 }
        { type := TransactionType.transfer }).shouldOptimize = false :=
  ⟨⟨rfl, by norm_num [defaultConfig], by norm_num, by decide, by decide⟩,
    (c10_absent_user_max_fee defaultConfig
      { baseFee := 50, priorityFeeRange := [1, 2, 3, 4], networkCongestion := 0.5 }
      { type := TransactionType.transfer } rfl (by norm_num [defaultConfig])
      (by norm_num) (by decide) (by decide)).2.2.1,
    (c10_absent_user_max_fee defaultConfig
      { baseFee := 50, priorityFeeRange := [1, 2, 3, 4], networkCongestion := 0.5 }
      { type := TransactionType.transfer } rfl (by norm_num [defaultConfig])
      (by norm_num) (by decide) (by decide)).2.2.2.2.2.2⟩

/-- The congestion formula min(1, baseFee/100) of both normalizers clamps to
the unit interval and saturates at base fee 100. -/
lemma congestion_spec (x : JNum) (b : ℚ) (hx : x = some b) (hb : 0 ≤ b) :
    ∃ c, jmin (some 1) (jdiv x (some 100)) = some c ∧ 0 ≤ c ∧ c ≤ 1 ∧ (100 ≤ b → c = 1) := by
  subst hx
  refine ⟨min 1 (b / 100), rfl, le_min (by norm_num) (by positivity), min_le_left _ _, ?_⟩
  intro h100
  exact min_eq_left ((one_le_div (by norm_num)).mpr h100)

/-- C4: every snapshot accepted by either normalizer whose derived base fee is
a non-negative number has a congestion score in the unit interval, equal to 1
whenever the base fee is at least 100. -/
theorem c4_congestion_clamp :
    (∀ (body : GasStationBody) (snap : JGasData) (b : ℚ),
        normalizeGasStationData body = Except.ok snap → snap.baseFee = some b → 0 ≤ b →
        ∃ c, snap.networkCongestion = some c ∧ 0 ≤ c ∧ c ≤ 1 ∧ (100 ≤ b → c = 1)) ∧
    (∀ (body : PolygonscanBody) (snap : JGasData) (b : ℚ),
        normalizePolygonscanData body = Except.ok snap → snap.baseFee = some b → 0 ≤ b →
        ∃ c, snap.networkCongestion = some c ∧ 0 ≤ c ∧ c ≤ 1 ∧ (100 ≤ b → c = 1)) := by
  constructor
  · intro body snap b hok hbase hb
    unfold normalizeGasStationData at hok
    split at hok
    · injection hok with hok
      subst hok
      exact congestion_spec _ b hbase hb
    · exact absurd hok (by simp)
  · intro body snap b hok hbase hb
    unfold normalizePolygonscanData at hok
    split at hok
    · exact absurd hok (by simp)
    · split at hok
      · exact absurd hok (by simp)
      · injection hok with hok
        subst hok
        exact congestion_spec _ b hbase hb

/-- Witness for C4 on concrete bodies for both normalizers. -/
theorem c4_congestion_clamp_witness :
    (∃ snap c, normalizeGasStationData c4GasBody = Except.ok snap ∧
      snap.baseFee = some (62 - 32 : ℚ) ∧ (0 : ℚ) ≤ 62 - 32 ∧
      snap.networkCongestion = some c ∧ 0 ≤ c ∧ c ≤ 1 ∧ ((100 : ℚ) ≤ 62 - 32 → c = 1)) ∧
    (∃ snap c, normalizePolygonscanData c4ScanBody = Except.ok snap ∧
      snap.baseFee = some ((⌊(150 : ℚ) * 0.8⌋ : ℤ) : ℚ) ∧
      (0 : ℚ) ≤ ((⌊(150 : ℚ) * 0.8⌋ : ℤ) : ℚ) ∧
      snap.networkCongestion = some c ∧ 0 ≤ c ∧ c ≤ 1 ∧
      ((100 : ℚ) ≤ ((⌊(150 : ℚ) * 0.8⌋ : ℤ) : ℚ) → c = 1)) := by
  constructor
  · obtain ⟨c, h1, h2, h3, h4⟩ :=
      c4_congestion_clamp.1 c4GasBody _ (62 - 32 : ℚ) rfl rfl (by norm_num)
    exact ⟨_, c, rfl, rfl, by norm_num, h1, h2, h3, h4⟩
  · have hbase : (0 : ℚ) ≤ ((⌊(150 : ℚ) * 0.8⌋ : ℤ) : ℚ) := by
      have h120 : ⌊(150 : ℚ) * 0.8⌋ = (120 : ℤ) := by
        rw [Int.floor_eq_iff]
        constructor <;> norm_num
      rw [h120]
      norm_num
    obtain ⟨c, h1, h2, h3, h4⟩ :=
      c4_congestion_clamp.2 c4ScanBody _ ((⌊(150 : ℚ) * 0.8⌋ : ℤ) : ℚ) rfl rfl hbase
    exact ⟨_, c, rfl, rfl, hbase, h1, h2, h3, h4⟩

/-- C5: for valid ascending raw inputs the normalized tiers are present and
their max fees are monotone from safeLow to fastest, for both shapes. -/
theorem c5_tier_monotonicity :
    (∀ (body : GasStationBody) (tSL tSt tF tFf : RawGasTier) (v1 v2 v3 v4 : ℚ),
        body.safeLow = some tSL → body.standard = some tSt →
        body.fast = some tF → body.fastest = some tFf →
        jsParseInt tSL.maxFee = some v1 → jsParseInt tSt.maxFee = some v2 →
        jsParseInt tF.maxFee = some v3 → jsParseInt tFf.maxFee = some v4 →
        0 ≤ v1 → v1 ≤ v2 → v2 ≤ v3 → v3 ≤ v4 →
        ∃ snap, normalizeGasStationData body = Except.ok snap ∧
          snap.estimatedPrices.safeLow.maxFeePerGas = some v1 ∧
          snap.estimatedPrices.standard.maxFeePerGas = some v2 ∧
          snap.estimatedPrices.fast.maxFeePerGas = some v3 ∧
          snap.estimatedPrices.fastest.maxFeePerGas = some v4 ∧
          v1 ≤ v2 ∧ v2 ≤ v3 ∧ v3 ≤ v4) ∧
    (∀ (body : PolygonscanBody) (res : PolygonscanResult) (s p f : ℚ),
        body.status = some ("1") → body.result = some res →
        jsParseInt res.SafeGasPrice = some s → jsParseInt res.ProposeGasPrice = some p →
        jsParseInt res.FastGasPrice = some f →
        0 ≤ s → s ≤ p → p ≤ f →
        ∃ snap, normalizePolygonscanData body = Except.ok snap ∧
          snap.estimatedPrices.safeLow.maxFeePerGas = some s ∧
          snap.estimatedPrices.standard.maxFeePerGas = some p ∧
          snap.estimatedPrices.fast.maxFeePerGas = some f ∧
          snap.estimatedPrices.fastest.maxFeePerGas = some ((⌈f * 1.2⌉ : ℤ) : ℚ) ∧
          s ≤ p ∧ p ≤ f ∧ f ≤ ((⌈f * 1.2⌉ : ℤ) : ℚ)) := by
  constructor
  · intro body tSL tSt tF tFf v1 v2 v3 v4 h1 h2 h3 h4 p1 p2 p3 p4 hv0 hv12 hv23 hv34
    rcases body with ⟨sl, st, f, ff⟩
    dsimp only at h1 h2 h3 h4
    subst h1
    subst h2
    subst h3
    subst h4
    refine ⟨_, rfl, ?_, ?_, ?_, ?_, hv12, hv23, hv34⟩
    all_goals simp [normalizeGasStationData, p1, p2, p3, p4]
  · intro body res s p f hst hres p1 p2 p3 hs0 hsp hpf
    have hff : f ≤ ((⌈f * 1.2⌉ : ℤ) : ℚ) := by
      calc f ≤ f * 1.2 := by nlinarith
        _ ≤ ((⌈f * 1.2⌉ : ℤ) : ℚ) := Int.le_ceil _
    rcases body with ⟨bst, bres⟩
    dsimp only at hst hres
    subst hst
    subst hres
    refine ⟨_, rfl, ?_, ?_, ?_, ?_, hsp, hpf, hff⟩
    all_goals simp [normalizePolygonscanData, p1, p2, p3, jmul, jceil]

/-- Witness for C5 on concrete ascending bodies for both shapes. -/
theorem c5_tier_monotonicity_witness :
    (∃ snap, normalizeGasStationData c5GasBody = Except.ok snap ∧
      snap.estimatedPrices.safeLow.maxFeePerGas = some 30 ∧
      snap.estimatedPrices.standard.maxFeePerGas = some 32 ∧
      snap.estimatedPrices.fast.maxFeePerGas = some 35 ∧
      snap.estimatedPrices.fastest.maxFeePerGas = some 40 ∧
      (30 : ℚ) ≤ 32 ∧ (32 : ℚ) ≤ 35 ∧ (35 : ℚ) ≤ 40) ∧
    (∃ snap, normalizePolygonscanData c5ScanBody = Except.ok snap ∧
      snap.estimatedPrices.safeLow.maxFeePerGas = some 100 ∧
      snap.estimatedPrices.standard.maxFeePerGas = some 150 ∧
      snap.estimatedPrices.fast.maxFeePerGas = some 200 ∧
      snap.estimatedPrices.fastest.maxFeePerGas = some ((⌈(200 : ℚ) * 1.2⌉ : ℤ) : ℚ) ∧
      (100 : ℚ) ≤ 150 ∧ (150 : ℚ) ≤ 200 ∧ (200 : ℚ) ≤ ((⌈(200 : ℚ) * 1.2⌉ : ℤ) : ℚ)) :=
  ⟨c5_tier_monotonicity.1 c5GasBody _ _ _ _ 30 32 35 40 rfl rfl rfl rfl
      (by decide) (by decide) (by decide) (by decide)
      (by norm_num) (by norm_num) (by norm_num) (by norm_num),
    c5_tier_monotonicity.2 c5ScanBody _ 100 150 200 rfl rfl
      (by decide) (by decide) (by decide)
      (by norm_num) (by norm_num) (by norm_num)⟩

/-- C6 counterexample: on a body whose tier objects are all present but whose
standard maxFee is the non-numeric string abc, normalizeGasStationData does
not fail: it returns a snapshot whose baseFee is NaN (modelled none), so a
partially-populated snapshot does reach the caller. -/
theorem c6_counterexample :
    (normalizeGasStationData c6Body).map JGasData.baseFee = Except.ok none := by
  rfl

/-- C6 amended: normalization fails only on structural faults - the
polygonscan normalizer throws its invalid-response Error when status is not
the string 1 or result is absent, and the gas-station normalizer throws a
TypeError when a tier object is absent; a body whose tier objects are all
present is always accepted, even when leaf fields are absent or non-numeric,
in which case parseInt yields NaN and the snapshot carries NaN fields. -/
theorem c6_amended :
    (∀ body : PolygonscanBody, (body.status ≠ some ("1") ∨ body.result = none) →
        normalizePolygonscanData body = Except.error NormalizeError.invalidResponse) ∧
    (∀ body : GasStationBody,
        (body.safeLow = none ∨ body.standard = none ∨ body.fast = none ∨ body.fastest = none) →
        normalizeGasStationData body = Except.error NormalizeError.typeError) ∧
    (∀ body : GasStationBody, body.safeLow ≠ none → body.standard ≠ none →
        body.fast ≠ none → body.fastest ≠ none →
        ∃ snap, normalizeGasStationData body = Except.ok snap) ∧
    (∀ body : PolygonscanBody, body.status = some ("1") → body.result ≠ none →
        ∃ snap, normalizePolygonscanData body = Except.ok snap) ∧
    ((normalizePolygonscanData c6ScanBody).map
        (fun snap => snap.estimatedPrices.safeLow.maxFeePerGas) = Except.ok none) := by
  refine ⟨?_, ?_, ?_, ?_, ?_⟩
  · intro body h
    unfold normalizePolygonscanData
    rw [if_pos h]
  · intro body h
    rcases body with ⟨sl, st, f, ff⟩
    cases sl <;> cases st <;> cases f <;> cases ff <;> simp_all [normalizeGasStationData]
  · intro body hsl hst hf hff
    rcases body with ⟨sl, st, f, ff⟩
    cases sl <;> cases st <;> cases f <;> cases ff <;> simp_all [normalizeGasStationData]
  · intro body hst hres
    rcases body with ⟨bst, bres⟩
    dsimp only at hst hres
    subst hst
    cases bres with
    | none => exact absurd rfl hres
    | some res => exact ⟨_, rfl⟩
  · rfl

/-- Witness for the amended C6 on concrete bodies. -/
theorem c6_amended_witness :
    ((({} : PolygonscanBody).status ≠ some ("1") ∨ ({} : PolygonscanBody).result = none) ∧
      normalizePolygonscanData {} = Except.error NormalizeError.invalidResponse) ∧
    ((({} : GasStationBody).safeLow = none ∨ ({} : GasStationBody).standard = none ∨
        ({} : GasStationBody).fast = none ∨ ({} : GasStationBody).fastest = none) ∧
      normalizeGasStationData {} = Except.error NormalizeError.typeError) ∧
    (c6Body.safeLow ≠ none ∧ c6Body.standard ≠ none ∧ c6Body.fast ≠ none ∧
      c6Body.fastest ≠ none ∧ ∃ snap, normalizeGasStationData c6Body = Except.ok snap) ∧
    (c6ScanBody.status = some ("1") ∧ c6ScanBody.result ≠ none ∧
      ∃ snap, normalizePolygonscanData c6ScanBody = Except.ok snap) :=
  ⟨⟨Or.inl (by decide), c6_amended.1 {} (Or.inl (by decide))⟩,
    ⟨Or.inl rfl, c6_amended.2.1 {} (Or.inl rfl)⟩,
    ⟨by decide, by decide, by decide, by decide,
      c6_amended.2.2.1 c6Body (by decide) (by decide) (by decide) (by decide)⟩,
    ⟨rfl, by decide,
      c6_amended.2.2.2.1 c6ScanBody rfl (by decide)⟩⟩

/-- C8 counterexample: with maxRetries 3, after four consecutive primary
failures (two failing cycles of two primary attempts each) the retry counter
is 2 and the next attempt again calls the primary endpoint twice, not only
the fallback; even after four consecutive failing cycles (counter 3) the
cycle that finally reaches the fallback still calls the primary endpoint
first, so no attempt ever calls only the fallback. -/
theorem c8_counterexample :
    failCycles 3 2 = 2 ∧
    (fetchCycle 3 (failCycles 3 2) false false false).calls
      = [ApiSource.primary, ApiSource.primary] ∧
    (fetchCycle 3 (failCycles 3 2) false false false).calls ≠ [ApiSource.fallback] ∧
    failCycles 3 3 = 3 ∧
    (fetchCycle 3 (failCycles 3 3) false false false).calls
      = [ApiSource.primary, ApiSource.fallback] ∧
    (fetchCycle 3 (failCycles 3 3) false false false).calls ≠ [ApiSource.fallback] ∧
    failCycles 3 4 = 0 ∧
    (fetchCycle 3 (failCycles 3 4) false false false).calls
      = [ApiSource.primary, ApiSource.primary] := by
  decide

/-- C8 amended: every fetch cycle attempts the primary endpoint first.  Only
the first primary failure of a cycle increments the retry counter; when the
incremented counter exceeds maxRetries the counter resets to 0 and the
fallback is called in the same cycle (so the counter is 0 after fallback
success or failure); otherwise the primary is retried once and that retry
failing fails the cycle without a further increment.  Consequently the
counter after n consecutive failing cycles is n for n up to maxRetries, and
the (maxRetries+1)-th consecutive failing cycle is the first to reach the
fallback, resetting the counter to 0. -/
theorem c8_amended (maxRetries rc : ℕ) (p2 fb : Bool) :
    (fetchCycle maxRetries rc true p2 fb
        = { calls := [ApiSource.primary], success := true, retryCount := rc }) ∧
    (maxRetries < rc + 1 →
      fetchCycle maxRetries rc false p2 fb
        = { calls := [ApiSource.primary, ApiSource.fallback], success := fb, retryCount := 0 }) ∧
    (rc + 1 ≤ maxRetries →
      fetchCycle maxRetries rc false p2 fb
        = { calls := [ApiSource.primary, ApiSource.primary], success := p2, retryCount := rc + 1 }) ∧
    (∀ p1, (fetchCycle maxRetries rc p1 p2 fb).calls.head? = some ApiSource.primary) ∧
    (∀ n, n ≤ maxRetries → failCycles maxRetries n = n) ∧
    failCycles maxRetries (maxRetries + 1) = 0 := by
  have hfc : ∀ n, n ≤ maxRetries → failCycles maxRetries n = n := by
    intro n
    induction n with
    | zero => intro _; rfl
    | succ k ih =>
      intro hk
      have hk' : k ≤ maxRetries := Nat.le_of_succ_le hk
      unfold failCycles
      rw [ih hk']
      simp only [fetchCycle, Bool.false_eq_true, if_false]
      rw [if_neg (by omega)]
  refine ⟨?_, ?_, ?_, ?_, hfc, ?_⟩
  · simp [fetchCycle]
  · intro h
    simp only [fetchCycle, Bool.false_eq_true, if_false]
    rw [if_pos (by omega)]
  · intro h
    simp only [fetchCycle, Bool.false_eq_true, if_false]
    rw [if_neg (by omega)]
  · intro p1
    unfold fetchCycle
    split
    · rfl
    · dsimp only
      split <;> rfl
  · unfold failCycles
    rw [hfc maxRetries (le_refl _)]
    simp only [fetchCycle, Bool.false_eq_true, if_false]
    rw [if_pos (by omega)]

/-- Witness for the amended C8 at maxRetries 3 and counter values 1 and 3. -/
theorem c8_amended_witness :
    ((3 : ℕ) < 3 + 1 ∧ fetchCycle 3 3 false false true
        = { calls := [ApiSource.primary, ApiSource.fallback], success := true, retryCount := 0 }) ∧
    ((1 : ℕ) + 1 ≤ 3 ∧ fetchCycle 3 1 false true false
        = { calls := [ApiSource.primary, ApiSource.primary], success := true, retryCount := 2 }) ∧
    ((2 : ℕ) ≤ 3 ∧ failCycles 3 2 = 2) ∧
    failCycles 3 (3 + 1) = 0 :=
  ⟨⟨by norm_num, (c8_amended 3 3 false true).2.1 (by norm_num)⟩,
    ⟨by norm_num, (c8_amended 3 1 true false).2.2.1 (by norm_num)⟩,
    ⟨by norm_num, (c8_amended 3 0 false false).2.2.2.2.1 2 (by norm_num)⟩,
    (c8_amended 3 0 false false).2.2.2.2.2⟩

end OneClickMatic
